import Mathlib

/-!
Verification of the UFC (Unified Form-assembly Code) interface contract,
`src/ffc/backends/ufc/ufc.h`.  The header declares the binary contract between
generated finite-element kernels and an assembly host: a version string, the
cell-shape enumerations, the `ufc_finite_element` record of function pointers,
and the abstract classes `ufc::dofmap`, `ufc::coordinate_mapping`,
`ufc::integral` (with its five variants) and `ufc::form`.  Concrete
implementations are generated code that is not part of the repository, so the
behavioural contracts are modelled from the specification, while the facts
that the header itself fixes (version string construction, enumeration
contents and order, operation signatures) are embedded directly.
-/

namespace UFC

/-! ## Version string (ufc.h lines 13-33) -/

/-- From ufc.h line 13: `#define UFC_VERSION_MAJOR 2018`. -/
def UFC_VERSION_MAJOR : Nat := 2018

/-- From ufc.h line 14: `#define UFC_VERSION_MINOR 1`. -/
def UFC_VERSION_MINOR : Nat := 1

/-- From ufc.h line 15: `#define UFC_VERSION_MAINTENANCE 0`. -/
def UFC_VERSION_MAINTENANCE : Nat := 0

/-- From ufc.h line 16: `#define UFC_VERSION_RELEASE 0`. -/
def UFC_VERSION_RELEASE : Nat := 0

/-- The stringification `CONCAT(a, b, c) = #a "." #b "." #c` of ufc.h line 21:
the three numbers joined by dots. -/
def versionBase (major minor maintenance : Nat) : String :=
  toString major ++ "." ++ toString minor ++ "." ++ toString maintenance

/-- The conditional of ufc.h lines 24-30: when `UFC_VERSION_RELEASE` is nonzero
the version string is `MAJOR.MINOR.MAINTENANCE`; otherwise the suffix `.dev0`
is appended. -/
def mkVersionString (major minor maintenance release : Nat) : String :=
  if release ≠ 0 then versionBase major minor maintenance
  else versionBase major minor maintenance ++ ".dev0"

/-- The constant `UFC_VERSION` of ufc.h lines 24-30, built from the four
version macros of lines 13-16. -/
def UFC_VERSION : String :=
  mkVersionString UFC_VERSION_MAJOR UFC_VERSION_MINOR UFC_VERSION_MAINTENANCE
    UFC_VERSION_RELEASE

/-! ## Shape enumerations (ufc.h lines 35-43 and 125-132) -/

/-- The C enumeration `ufc_shape` of ufc.h lines 35-43, in declaration order,
with the trailing `none` sentinel used by the non-polymorphic element record. -/
inductive ufc_shape
  | interval
  | triangle
  | quadrilateral
  | tetrahedron
  | hexahedron
  | vertex
  | none
  deriving DecidableEq, Fintype

/-- Position of a `ufc_shape` member in the enumeration, i.e. its C enumerator
value (implicit consecutive values starting at 0). -/
def ufc_shape.toIdx : ufc_shape → Nat
  | .interval => 0
  | .triangle => 1
  | .quadrilateral => 2
  | .tetrahedron => 3
  | .hexahedron => 4
  | .vertex => 5
  | .none => 6

/-- The C++ enumeration `ufc::shape` of ufc.h lines 125-132, in declaration
order; it has no `none` sentinel. -/
inductive shape
  | interval
  | triangle
  | quadrilateral
  | tetrahedron
  | hexahedron
  | vertex
  deriving DecidableEq, Fintype

/-- Position of a `ufc::shape` member in the enumeration. -/
def shape.toIdx : shape → Nat
  | .interval => 0
  | .triangle => 1
  | .quadrilateral => 2
  | .tetrahedron => 3
  | .hexahedron => 4
  | .vertex => 5

/-- The identification of each `ufc::shape` member with the `ufc_shape` member
of the same name. -/
def shape.toUfcShape : shape → ufc_shape
  | .interval => .interval
  | .triangle => .triangle
  | .quadrilateral => .quadrilateral
  | .tetrahedron => .tetrahedron
  | .hexahedron => .hexahedron
  | .vertex => .vertex

/-! ## Operation signatures of `ufc_finite_element` (ufc.h lines 50-120)

The record's callable operations are its function-pointer fields.  For each,
the C return type and whether the signature takes a mutable output buffer
(a leading non-const `double *` parameter) are read off the declarations. -/

/-- The function-pointer fields of `struct ufc_finite_element`
(ufc.h lines 70-119), in declaration order. -/
inductive ElemOp
  | value_dimension
  | reference_value_dimension
  | evaluate_reference_basis
  | evaluate_reference_basis_derivatives
  | transform_reference_basis_derivatives
  | map_dofs
  | tabulate_reference_dof_coordinates
  | create_sub_element
  | create
  deriving DecidableEq, Fintype

/-- C return types occurring among the operations of the record. -/
inductive CRet
  | cint
  | cvoid
  | cptr
  deriving DecidableEq

/-- The declared C return type of each operation, from ufc.h:
`int (*value_dimension)(int64_t)` (line 70),
`int (*reference_value_dimension)(int64_t)` (line 79),
`int (*evaluate_reference_basis)(...)` (line 91),
`int (*evaluate_reference_basis_derivatives)(...)` (line 94),
`int (*transform_reference_basis_derivatives)(...)` (line 98),
`void (*map_dofs)(...)` (line 104),
`void (*tabulate_reference_dof_coordinates)(...)` (line 110),
`ufc_finite_element* (*create_sub_element)(int64_t)` (line 116),
`ufc_finite_element* (*create)()` (line 119). -/
def ElemOp.returnType : ElemOp → CRet
  | .value_dimension => .cint
  | .reference_value_dimension => .cint
  | .evaluate_reference_basis => .cint
  | .evaluate_reference_basis_derivatives => .cint
  | .transform_reference_basis_derivatives => .cint
  | .map_dofs => .cvoid
  | .tabulate_reference_dof_coordinates => .cvoid
  | .create_sub_element => .cptr
  | .create => .cptr

/-- Whether the operation's C signature takes a mutable output buffer
(`double *reference_values`, `double *values`,
`double *reference_dof_coordinates`): true for the five tabulation and
transformation operations, false for the pure queries and factories. -/
def ElemOp.hasOutputBuffer : ElemOp → Bool
  | .evaluate_reference_basis => true
  | .evaluate_reference_basis_derivatives => true
  | .transform_reference_basis_derivatives => true
  | .map_dofs => true
  | .tabulate_reference_dof_coordinates => true
  | _ => false

/-- An operation has an error channel when it returns `int` as a status code
distinct from its actual result, i.e. it writes its result into an output
buffer and returns `int` (for the queries `value_dimension` and
`reference_value_dimension` the returned `int` is the result itself, not a
status). -/
def ElemOp.hasErrorChannel (op : ElemOp) : Bool :=
  op.returnType == CRet.cint && op.hasOutputBuffer

/-! ## Dofmap (ufc.h lines 136-193) -/

/-- Modelled from the spec: concrete dofmap implementations are generated code
absent from src (ufc.h only declares the abstract class `ufc::dofmap`).  Per
the doc comments of ufc.h lines 144-154, a dofmap's local dofs split into dofs
with global support (e.g. global constants) and dofs with element-local
support; the model carries the two groups of dofs explicitly. -/
structure dofmap_model where
  global_support_dofs : List Nat
  element_support_dofs : List Nat

/-- ufc.h line 146: the number of dofs with global support. -/
def dofmap_model.num_global_support_dofs (d : dofmap_model) : Nat :=
  d.global_support_dofs.length

/-- ufc.h line 150: the dimension of the local function space for a cell, not
including global support dofs. -/
def dofmap_model.num_element_support_dofs (d : dofmap_model) : Nat :=
  d.element_support_dofs.length

/-- ufc.h line 154: the dimension of the local function space for a cell, old
version including global support dofs. -/
def dofmap_model.num_element_dofs (d : dofmap_model) : Nat :=
  (d.global_support_dofs ++ d.element_support_dofs).length

/-! ## Finite-element value shapes (ufc.h lines 66-82) -/

/-- Modelled from the spec: concrete elements are generated code absent from
src (ufc.h only declares the `ufc_finite_element` record).  Per the spec the
value space of an element is shaped by a rank and per-axis dimensions, and
`value_size` is its number of components; the model carries the two per-axis
dimension lists (physical and reference) from which the generated record's
scalar fields are filled in. -/
structure element_value_desc where
  value_shape : List Nat
  reference_value_shape : List Nat

/-- ufc.h line 67: the rank of the value space. -/
def element_value_desc.value_rank (e : element_value_desc) : Nat :=
  e.value_shape.length

/-- ufc.h line 70: the dimension of the value space for axis i. -/
def element_value_desc.value_dimension (e : element_value_desc) (i : Nat) : Nat :=
  e.value_shape.getD i 1

/-- ufc.h line 73: the number of components of the value space. -/
def element_value_desc.value_size (e : element_value_desc) : Nat :=
  e.value_shape.prod

/-- ufc.h line 76: the rank of the reference value space. -/
def element_value_desc.reference_value_rank (e : element_value_desc) : Nat :=
  e.reference_value_shape.length

/-- ufc.h line 79: the dimension of the reference value space for axis i. -/
def element_value_desc.reference_value_dimension (e : element_value_desc)
    (i : Nat) : Nat :=
  e.reference_value_shape.getD i 1

/-- ufc.h line 82: the number of components of the reference value space. -/
def element_value_desc.reference_value_size (e : element_value_desc) : Nat :=
  e.reference_value_shape.prod

/-! ## Mixed elements (ufc.h lines 63-64, 112-116) -/

/-- Modelled from the spec: concrete elements are generated code absent from
src.  Per the spec an element is either non-mixed, with a space dimension of
its own, or mixed, combining a nonempty list of sub-elements (ufc.h line 112:
`num_sub_elements`, line 116: `create_sub_element`). -/
inductive element_def
  | basic (dim : Nat)
  | mixed (subs : List element_def)

/-- ufc.h line 113: the number of sub elements (for a mixed element); 0 for a
non-mixed element. -/
def element_def.num_sub_elements : element_def → Nat
  | .basic _ => 0
  | .mixed subs => subs.length

/-- Whether the element is a mixed element. -/
def element_def.isMixed : element_def → Bool
  | .basic _ => false
  | .mixed _ => true

/-- The sub-elements obtainable through `create_sub_element` (ufc.h line 116);
empty for a non-mixed element. -/
def element_def.subElements : element_def → List element_def
  | .basic _ => []
  | .mixed subs => subs

mutual

/-- ufc.h line 64: the dimension of the finite element function space; for a
mixed element the sub-elements partition it. -/
def element_def.space_dimension : element_def → Nat
  | .basic dim => dim
  | .mixed subs => space_dimension_list subs

/-- Sum of the space dimensions of a list of elements. -/
def space_dimension_list : List element_def → Nat
  | [] => 0
  | e :: es => e.space_dimension + space_dimension_list es

end

/-- Well-formedness of an element description: a mixed element has at least
one sub-element (an empty mixed element does not occur in generated code). -/
def element_def.wf : element_def → Bool
  | .basic _ => true
  | .mixed subs => !subs.isEmpty

/-! ## Form integral dispatch (ufc.h lines 560-624)

`ufc::form` declares, for each of the five integral kinds (cell, exterior
facet, interior facet, vertex, custom), an upper bound on subdomain ids
(`max_<kind>_subdomain_id`), a per-id factory (`create_<kind>_integral`) and a
catch-all factory (`create_default_<kind>_integral`).  The model below is one
kind's slice of a form; all five kinds are instances of it. -/

/-- Modelled from the spec: concrete forms are generated code absent from src
(ufc.h only declares the abstract class `ufc::form`).  Per ufc.h lines 560-573
each integral kind has an upper bound on subdomain ids, and per the spec an id
at or beyond the bound has no registered integral; `Option.none` models the C
`nullptr` result. -/
structure form_integrals (I : Type) where
  max_subdomain_id : Nat
  create_integral : Nat → Option I
  create_default_integral : Option I
  beyond_bound_unregistered :
    ∀ id, max_subdomain_id ≤ id → create_integral id = Option.none

/-- The caller's dispatch of spec section 4.4: request the integral for the
given subdomain id and, when none is registered there, fall back to the
default integral. -/
def form_integrals.lookup_integral {I : Type} (f : form_integrals I)
    (id : Nat) : Option I :=
  match f.create_integral id with
  | Option.some i => Option.some i
  | Option.none => f.create_default_integral

/-- What the assembler does with the dispatched result: a null integral means
the cell/facet contributes nothing and is skipped. -/
inductive contribution (I : Type)
  | skip
  | assemble (i : I)
  deriving DecidableEq

/-- The assembler's action for a subdomain id: dispatch, then skip on a null
result. -/
def form_integrals.dispatch {I : Type} (f : form_integrals I) (id : Nat) :
    contribution I :=
  match f.lookup_integral id with
  | Option.none => contribution.skip
  | Option.some i => contribution.assemble i

/-! ## Integral coefficient masking (ufc.h lines 402-427) -/

/-- Modelled from the spec: concrete integrals are generated code absent from
src (ufc.h only declares the abstract classes).  Per ufc.h line 408 an
integral tabulates which form coefficients it uses (`enabled_coefficients`),
and per the spec coefficients masked false are not read and may be passed as
absent; the model's `tabulate_tensor` therefore hands its kernel exactly the
masked restriction of the coefficient array.  A coefficient value is a list of
rationals (the dof values of that coefficient on the cell), passed as
`Option.none` when absent. -/
structure cell_integral_model where
  num_coefficients : Nat
  enabled_coefficients : Nat → Bool
  kernel : (Nat → List ℚ) → List ℚ → ℤ → List ℚ

/-- The restriction of the coefficient array `w` to the enabled coefficients:
a disabled or absent coefficient is never read, so its slot is the empty
value. -/
def masked_w (enabled : Nat → Bool) (w : List (Option (List ℚ))) :
    Nat → List ℚ :=
  fun i => if enabled i then (w.getD i Option.none).getD [] else []

/-- ufc.h line 424: tabulate the tensor for the contribution from a local
cell, given the coefficient array `w`, the coordinate dofs and the cell
orientation. -/
def cell_integral_model.tabulate_tensor (integ : cell_integral_model)
    (w : List (Option (List ℚ))) (coordinate_dofs : List ℚ)
    (cell_orientation : ℤ) : List ℚ :=
  integ.kernel (masked_w integ.enabled_coefficients w) coordinate_dofs
    cell_orientation

/-! ## Coordinate mapping batch operations (ufc.h lines 197-397) -/

/-- Modelled from the spec: concrete coordinate mappings are generated code
absent from src (ufc.h only declares the abstract class
`ufc::coordinate_mapping`).  Per spec section 4.1 every batch operation
evaluates its points independently, so the model is given per-point kernels;
a point is a list of rationals (its coordinates), a Jacobian is its flattened
gdim x tdim entry list. -/
structure coordinate_mapping_model where
  phys_point : List ℚ → List ℚ → List ℚ
  ref_point : List ℚ → List ℚ → ℤ → List ℚ
  jacobian_point : List ℚ → List ℚ → List ℚ
  det_point : List ℚ → ℤ → ℚ
  inv_point : List ℚ → ℚ → List ℚ

namespace coordinate_mapping_model

/-- ufc.h line 237: compute physical coordinates x from reference coordinates
X, for a batch of points. -/
def compute_physical_coordinates (cm : coordinate_mapping_model)
    (X : List (List ℚ)) (coordinate_dofs : List ℚ) : List (List ℚ) :=
  X.map (fun p => cm.phys_point p coordinate_dofs)

/-- ufc.h line 259: compute reference coordinates X from physical coordinates
x, for a batch of points. -/
def compute_reference_coordinates (cm : coordinate_mapping_model)
    (x : List (List ℚ)) (coordinate_dofs : List ℚ) (cell_orientation : ℤ) :
    List (List ℚ) :=
  x.map (fun p => cm.ref_point p coordinate_dofs cell_orientation)

/-- ufc.h line 311: compute Jacobians J = dx/dX at a batch of reference
points. -/
def compute_jacobians (cm : coordinate_mapping_model) (X : List (List ℚ))
    (coordinate_dofs : List ℚ) : List (List ℚ) :=
  X.map (fun p => cm.jacobian_point p coordinate_dofs)

/-- ufc.h line 328: compute determinants of a batch of (pseudo-)Jacobians. -/
def compute_jacobian_determinants (cm : coordinate_mapping_model)
    (J : List (List ℚ)) (cell_orientation : ℤ) : List ℚ :=
  J.map (fun j => cm.det_point j cell_orientation)

/-- ufc.h line 346: compute (pseudo-)inverses K of a batch of
(pseudo-)Jacobians, each paired with its determinant. -/
def compute_jacobian_inverses (cm : coordinate_mapping_model)
    (J : List (List ℚ)) (detJ : List ℚ) : List (List ℚ) :=
  (J.zip detJ).map (fun p => cm.inv_point p.1 p.2)

/-- The per-point computation of ufc.h line 290: X, J, detJ, K from one
physical point. -/
def ref_geometry_point (cm : coordinate_mapping_model) (p : List ℚ)
    (coordinate_dofs : List ℚ) (cell_orientation : ℤ) :
    List ℚ × List ℚ × ℚ × List ℚ :=
  let X := cm.ref_point p coordinate_dofs cell_orientation
  let J := cm.jacobian_point X coordinate_dofs
  let d := cm.det_point J cell_orientation
  (X, J, d, cm.inv_point J d)

/-- ufc.h line 290: compute X, J, detJ, K from a batch of physical points. -/
def compute_reference_geometry (cm : coordinate_mapping_model)
    (x : List (List ℚ)) (coordinate_dofs : List ℚ) (cell_orientation : ℤ) :
    List (List ℚ × List ℚ × ℚ × List ℚ) :=
  x.map (fun p => cm.ref_geometry_point p coordinate_dofs cell_orientation)

/-- The per-point computation of ufc.h line 377: x, J, detJ, K from one
reference point. -/
def geometry_point (cm : coordinate_mapping_model) (p : List ℚ)
    (coordinate_dofs : List ℚ) (cell_orientation : ℤ) :
    List ℚ × List ℚ × ℚ × List ℚ :=
  let J := cm.jacobian_point p coordinate_dofs
  let d := cm.det_point J cell_orientation
  (cm.phys_point p coordinate_dofs, J, d, cm.inv_point J d)

/-- ufc.h line 377: combined computation of x, J, detJ, K from a batch of
reference points. -/
def compute_geometry (cm : coordinate_mapping_model) (X : List (List ℚ))
    (coordinate_dofs : List ℚ) (cell_orientation : ℤ) :
    List (List ℚ × List ℚ × ℚ × List ℚ) :=
  X.map (fun p => cm.geometry_point p coordinate_dofs cell_orientation)

end coordinate_mapping_model

/-! ## Reference-coordinate solver round trip (ufc.h lines 222-262) -/

/-- Modelled from the spec: `compute_reference_coordinates` in generated code
is absent from src; per spec section 4.1 it inverts the forward map
`compute_physical_coordinates`, iteratively (e.g. Newton) for non-affine maps,
stopping within the solver tolerance.  The model is one-dimensional: `phys`
is the forward map of a cell (affine or not, determined by its coordinate
dofs), `step` the solver's iteration step and `tol` the solver tolerance. -/
structure coordinate_map_solver where
  phys : ℚ → ℚ
  step : ℚ → ℚ → ℚ
  tol : ℚ

/-- The solver loop: return the current iterate as soon as its forward image
is within tolerance of the target x, otherwise take one step, with bounded
fuel. -/
def solve_loop (s : coordinate_map_solver) (x : ℚ) : Nat → ℚ → Option ℚ
  | 0, X => if |s.phys X - x| ≤ s.tol then Option.some X else Option.none
  | fuel + 1, X =>
    if |s.phys X - x| ≤ s.tol then Option.some X
    else solve_loop s x fuel (s.step X x)

/-- The forward map, ufc.h line 237, at one point of this cell. -/
def coordinate_map_solver.compute_physical_coordinates
    (s : coordinate_map_solver) (X : ℚ) : ℚ :=
  s.phys X

/-- ufc.h line 259 at one point: compute the reference coordinate of x by
iterating the solver from the initial guess X0. -/
def coordinate_map_solver.compute_reference_coordinates
    (s : coordinate_map_solver) (x : ℚ) (fuel : Nat) (X0 : ℚ) : Option ℚ :=
  solve_loop s x fuel X0

/-! ## Helper lemmas -/

/-- The product of a list of naturals is the product of its entries indexed
over its range (out-of-range default 1). -/
theorem list_prod_eq_prod_range (l : List Nat) :
    l.prod = ∏ i ∈ Finset.range l.length, l.getD i 1 := by
  induction l with
  | nil => simp
  | cons a t ih =>
    rw [List.prod_cons, List.length_cons, Finset.prod_range_succ']
    simp only [List.getD_cons_succ, List.getD_cons_zero]
    rw [← ih, Nat.mul_comm]

/-- `space_dimension_list` is the sum of the space dimensions. -/
theorem space_dimension_list_eq_sum (l : List element_def) :
    space_dimension_list l = (l.map element_def.space_dimension).sum := by
  induction l with
  | nil => rfl
  | cons e t ih => rw [List.map_cons, List.sum_cons, ← ih]; rfl

/-! ## Theorems for the claims -/

/-- Claim C8: the embedded version string encodes the quadruple as
`MAJOR.MINOR.MAINTENANCE` when RELEASE is nonzero, and with the development
suffix `.dev0` appended when RELEASE is 0; the two strings never coincide, and
the constant of this header (RELEASE = 0) is the development string
`2018.1.0.dev0`. -/
theorem C8_version_string :
    (∀ major minor maintenance release : Nat,
      (release ≠ 0 →
        mkVersionString major minor maintenance release =
          versionBase major minor maintenance) ∧
      (release = 0 →
        mkVersionString major minor maintenance release =
          versionBase major minor maintenance ++ ".dev0") ∧
      (release ≠ 0 →
        mkVersionString major minor maintenance 0 ≠
          mkVersionString major minor maintenance release)) ∧
    UFC_VERSION = "2018.1.0.dev0" := by
  constructor
  · intro major minor maintenance release
    refine ⟨fun hr => by simp [mkVersionString, hr],
            fun hr => by simp [mkVersionString, hr],
            fun hr => ?_⟩
    have e0 : mkVersionString major minor maintenance 0 =
        versionBase major minor maintenance ++ ".dev0" := by
      simp [mkVersionString]
    have er : mkVersionString major minor maintenance release =
        versionBase major minor maintenance := by
      simp [mkVersionString, hr]
    rw [e0, er]
    intro h
    have h2 := congrArg String.length h
    rw [String.length_append] at h2
    have h5 : (".dev0" : String).length = 5 := rfl
    omega
  · rfl

/-- Witness for C8 at the concrete quadruples (2018, 1, 0, 1) and
(2018, 1, 0, 0). -/
theorem C8_version_string_witness :
    mkVersionString 2018 1 0 1 = versionBase 2018 1 0 ∧
    mkVersionString 2018 1 0 0 = versionBase 2018 1 0 ++ ".dev0" ∧
    mkVersionString 2018 1 0 0 ≠ mkVersionString 2018 1 0 1 :=
  ⟨(C8_version_string.1 2018 1 0 1).1 (by decide),
   (C8_version_string.1 2018 1 0 0).2.1 rfl,
   (C8_version_string.1 2018 1 0 1).2.2 (by decide)⟩

/-- Claim C9: both shape enumerations are closed sets listing interval,
triangle, quadrilateral, tetrahedron, hexahedron, vertex in this fixed order;
the `none` sentinel sits only in `ufc_shape` (as its last member) and no
`ufc::shape` member maps to it; the name-wise identification of the two
enumerations preserves the enumerator order. -/
theorem C9_shape_enumerations :
    (List.map ufc_shape.toIdx
      [ufc_shape.interval, ufc_shape.triangle, ufc_shape.quadrilateral,
       ufc_shape.tetrahedron, ufc_shape.hexahedron, ufc_shape.vertex,
       ufc_shape.none] = [0, 1, 2, 3, 4, 5, 6]) ∧
    (∀ s : ufc_shape,
      s ∈ [ufc_shape.interval, ufc_shape.triangle, ufc_shape.quadrilateral,
           ufc_shape.tetrahedron, ufc_shape.hexahedron, ufc_shape.vertex,
           ufc_shape.none]) ∧
    (List.map shape.toIdx
      [shape.interval, shape.triangle, shape.quadrilateral, shape.tetrahedron,
       shape.hexahedron, shape.vertex] = [0, 1, 2, 3, 4, 5]) ∧
    (∀ s : shape,
      s ∈ [shape.interval, shape.triangle, shape.quadrilateral,
           shape.tetrahedron, shape.hexahedron, shape.vertex]) ∧
    (∀ s : shape, shape.toUfcShape s ≠ ufc_shape.none) ∧
    (∀ s : shape, (shape.toUfcShape s).toIdx = s.toIdx) := by
  decide

/-- Witness for C9 at the concrete member vertex: it maps to the `ufc_shape`
member of the same name, not to the sentinel. -/
theorem C9_shape_enumerations_witness :
    shape.toUfcShape shape.vertex ≠ ufc_shape.none ∧
    (shape.toUfcShape shape.vertex).toIdx = shape.vertex.toIdx :=
  ⟨C9_shape_enumerations.2.2.2.2.1 shape.vertex,
   C9_shape_enumerations.2.2.2.2.2 shape.vertex⟩

/-- Claim C10: for every dofmap, `num_element_dofs` (the old count including
global support dofs) equals `num_global_support_dofs` plus
`num_element_support_dofs`. -/
theorem C10_dofmap_dof_counts (d : dofmap_model) :
    d.num_element_dofs =
      d.num_global_support_dofs + d.num_element_support_dofs := by
  simp [dofmap_model.num_element_dofs, dofmap_model.num_global_support_dofs,
        dofmap_model.num_element_support_dofs]

/-- Claim C3: for every finite element, `value_size` is the product of
`value_dimension(i)` over `i < value_rank`, and `reference_value_size` is the
product of `reference_value_dimension(i)` over `i < reference_value_rank`. -/
theorem C3_value_size_product (e : element_value_desc) :
    e.value_size = ∏ i ∈ Finset.range e.value_rank, e.value_dimension i ∧
    e.reference_value_size =
      ∏ i ∈ Finset.range e.reference_value_rank,
        e.reference_value_dimension i := by
  constructor
  · exact list_prod_eq_prod_range e.value_shape
  · exact list_prod_eq_prod_range e.reference_value_shape

/-- Claim C4 fails as stated: `transform_reference_basis_derivatives`
(ufc.h line 98) also returns an `int` status alongside its output buffer, yet
it is neither reference-basis evaluation nor its derivatives variant. -/
theorem C4_counterexample :
    ElemOp.hasErrorChannel ElemOp.transform_reference_basis_derivatives
      = true ∧
    ElemOp.transform_reference_basis_derivatives ≠
      ElemOp.evaluate_reference_basis ∧
    ElemOp.transform_reference_basis_derivatives ≠
      ElemOp.evaluate_reference_basis_derivatives := by
  decide

/-- Claim C4 amended: exactly the three operations
`evaluate_reference_basis`, `evaluate_reference_basis_derivatives` and
`transform_reference_basis_derivatives` carry an integer return code
signalling failure distinct from their output buffer; every other operation
of the record has no error channel. -/
theorem C4_error_channel_ops :
    ∀ op : ElemOp, op.hasErrorChannel = true ↔
      (op = ElemOp.evaluate_reference_basis ∨
       op = ElemOp.evaluate_reference_basis_derivatives ∨
       op = ElemOp.transform_reference_basis_derivatives) := by
  decide

/-- Witness for C4 at the concrete operation `evaluate_reference_basis`. -/
theorem C4_error_channel_ops_witness :
    ElemOp.hasErrorChannel ElemOp.evaluate_reference_basis = true :=
  (C4_error_channel_ops ElemOp.evaluate_reference_basis).mpr (Or.inl rfl)

/-- Claim C6: for every well-formed element, `num_sub_elements` is 0 exactly
when the element is non-mixed, and for a mixed element the sub-elements
returned by `create_sub_element` partition its space dimension. -/
theorem C6_mixed_partition (e : element_def) (h : e.wf = true) :
    (e.num_sub_elements = 0 ↔ e.isMixed = false) ∧
    (e.isMixed = true →
      e.space_dimension =
        (e.subElements.map element_def.space_dimension).sum) := by
  cases e with
  | basic d =>
    simp [element_def.num_sub_elements, element_def.isMixed]
  | mixed subs =>
    have hne : subs ≠ [] := by
      simpa [element_def.wf, List.isEmpty_iff] using h
    constructor
    · simp [element_def.num_sub_elements, element_def.isMixed,
            List.length_eq_zero, hne]
    · intro _
      simpa [element_def.space_dimension, element_def.subElements] using
        space_dimension_list_eq_sum subs

/-- Witness for C6 at the concrete mixed element combining sub-elements of
space dimensions 2 and 1. -/
theorem C6_mixed_partition_witness :
    ((element_def.mixed [element_def.basic 2, element_def.basic 1]).num_sub_elements
        = 0 ↔
      (element_def.mixed [element_def.basic 2, element_def.basic 1]).isMixed
        = false) ∧
    (element_def.mixed [element_def.basic 2, element_def.basic 1]).space_dimension
      = ((element_def.mixed
          [element_def.basic 2, element_def.basic 1]).subElements.map
            element_def.space_dimension).sum :=
  ⟨(C6_mixed_partition
      (element_def.mixed [element_def.basic 2, element_def.basic 1]) rfl).1,
   (C6_mixed_partition
      (element_def.mixed [element_def.basic 2, element_def.basic 1]) rfl).2 rfl⟩

/-- Claim C2: requesting an integral for a subdomain id at or beyond the
kind's declared maximum returns the same result as requesting an unmarked id:
both paths fall back to the default integral, a null result from either path
means the cell/facet is skipped, and dispatch is a total function of the id
(no request is a fault). -/
theorem C2_subdomain_dispatch {I : Type} (f : form_integrals I)
    (id unmarked : Nat) (hid : f.max_subdomain_id ≤ id)
    (hun : f.create_integral unmarked = Option.none) :
    f.lookup_integral id = f.create_default_integral ∧
    f.lookup_integral id = f.lookup_integral unmarked ∧
    (f.create_default_integral = Option.none →
      f.dispatch id = contribution.skip ∧
      f.dispatch unmarked = contribution.skip) := by
  have h1 : f.create_integral id = Option.none :=
    f.beyond_bound_unregistered id hid
  refine ⟨?_, ?_, ?_⟩
  · simp [form_integrals.lookup_integral, h1]
  · simp [form_integrals.lookup_integral, h1, hun]
  · intro hd
    constructor <;>
      simp [form_integrals.dispatch, form_integrals.lookup_integral, h1, hun,
        hd]

/-- A one-kind slice of a form with a single integral registered on subdomain
0, bound 2 and no default integral. -/
def exFormIntegrals : form_integrals Nat where
  max_subdomain_id := 2
  create_integral := fun id => if id = 0 then Option.some 7 else Option.none
  create_default_integral := Option.none
  beyond_bound_unregistered := by
    intro id h
    have hne : id ≠ 0 := by omega
    simp [hne]

/-- Witness for C2 at the concrete subdomain id 5 (beyond the bound 2) and
the unmarked id 1. -/
theorem C2_subdomain_dispatch_witness :
    exFormIntegrals.lookup_integral 5
        = exFormIntegrals.create_default_integral ∧
    exFormIntegrals.lookup_integral 5 = exFormIntegrals.lookup_integral 1 ∧
    (exFormIntegrals.create_default_integral = Option.none →
      exFormIntegrals.dispatch 5 = contribution.skip ∧
      exFormIntegrals.dispatch 1 = contribution.skip) :=
  C2_subdomain_dispatch exFormIntegrals 5 1 (by decide) (by decide)

/-- Claim C5: `tabulate_tensor` is invoked with coefficient arrays whose
length exactly matches the `enabled_coefficients` mask's length, and two
invocations that agree on every enabled coefficient — differing arbitrarily,
including by absence, on the coefficients masked false — produce the
identical output tensor. -/
theorem C5_disabled_coefficient_noninterference (integ : cell_integral_model)
    (w1 w2 : List (Option (List ℚ))) (coordinate_dofs : List ℚ)
    (cell_orientation : ℤ)
    (hl1 : w1.length = integ.num_coefficients)
    (hl2 : w2.length = integ.num_coefficients)
    (hagree : ∀ i, i < integ.num_coefficients →
      integ.enabled_coefficients i = true →
      w1.getD i Option.none = w2.getD i Option.none) :
    integ.tabulate_tensor w1 coordinate_dofs cell_orientation =
      integ.tabulate_tensor w2 coordinate_dofs cell_orientation := by
  unfold cell_integral_model.tabulate_tensor
  congr 1
  funext i
  unfold masked_w
  by_cases he : integ.enabled_coefficients i = true
  · simp only [he, if_true]
    by_cases hi : i < integ.num_coefficients
    · rw [hagree i hi he]
    · rw [List.getD_eq_default, List.getD_eq_default]
      · omega
      · omega
  · simp [he]

/-- A cell integral over two coefficients with only coefficient 0 enabled,
whose kernel emits the sum of the dof values of coefficient 0. -/
def exCellIntegral : cell_integral_model where
  num_coefficients := 2
  enabled_coefficients := fun i => i == 0
  kernel := fun w _ _ => [(w 0).sum]

/-- Witness for C5 at two concrete coefficient arrays that agree on the
enabled coefficient 0 and differ on the disabled coefficient 1, which is
absent in the second invocation. -/
theorem C5_disabled_coefficient_noninterference_witness :
    exCellIntegral.tabulate_tensor
        [Option.some [1, 2], Option.some [5]] [0, 1] 1 =
      exCellIntegral.tabulate_tensor
        [Option.some [1, 2], Option.none] [0, 1] 1 :=
  C5_disabled_coefficient_noninterference exCellIntegral
    [Option.some [1, 2], Option.some [5]] [Option.some [1, 2], Option.none]
    [0, 1] 1 (by decide) (by decide) (by decide)

/-- Claim C7: every batch operation of the coordinate mapping computes, for
each point of its batch, exactly what the same operation returns when invoked
with num_points = 1 on that point alone (for `compute_jacobian_inverses`, on
that Jacobian-determinant pair alone); there is no cross-point coupling. -/
theorem C7_batch_pointwise (cm : coordinate_mapping_model)
    (pts xs Js : List (List ℚ)) (dets : List ℚ) (coordinate_dofs : List ℚ)
    (cell_orientation : ℤ) :
    cm.compute_physical_coordinates pts coordinate_dofs =
      pts.map (fun p =>
        (cm.compute_physical_coordinates [p] coordinate_dofs).headI) ∧
    cm.compute_reference_coordinates xs coordinate_dofs cell_orientation =
      xs.map (fun p =>
        (cm.compute_reference_coordinates [p] coordinate_dofs
          cell_orientation).headI) ∧
    cm.compute_jacobians pts coordinate_dofs =
      pts.map (fun p => (cm.compute_jacobians [p] coordinate_dofs).headI) ∧
    cm.compute_jacobian_determinants Js cell_orientation =
      Js.map (fun j =>
        (cm.compute_jacobian_determinants [j] cell_orientation).headI) ∧
    cm.compute_jacobian_inverses Js dets =
      (Js.zip dets).map (fun p =>
        (cm.compute_jacobian_inverses [p.1] [p.2]).headI) ∧
    cm.compute_reference_geometry xs coordinate_dofs cell_orientation =
      xs.map (fun p =>
        (cm.compute_reference_geometry [p] coordinate_dofs
          cell_orientation).headI) ∧
    cm.compute_geometry pts coordinate_dofs cell_orientation =
      pts.map (fun p =>
        (cm.compute_geometry [p] coordinate_dofs cell_orientation).headI) := by
  refine ⟨?_, ?_, ?_, ?_, ?_, ?_, ?_⟩ <;>
    simp [coordinate_mapping_model.compute_physical_coordinates,
      coordinate_mapping_model.compute_reference_coordinates,
      coordinate_mapping_model.compute_jacobians,
      coordinate_mapping_model.compute_jacobian_determinants,
      coordinate_mapping_model.compute_jacobian_inverses,
      coordinate_mapping_model.compute_reference_geometry,
      coordinate_mapping_model.compute_geometry, List.headI]

/-- The solver loop only returns iterates whose forward image is within the
solver tolerance of the target. -/
theorem solve_loop_residual (s : coordinate_map_solver) (x : ℚ) :
    ∀ (fuel : Nat) (X0 Xp : ℚ), solve_loop s x fuel X0 = Option.some Xp →
      |s.phys Xp - x| ≤ s.tol := by
  intro fuel
  induction fuel with
  | zero =>
    intro X0 Xp h
    by_cases hc : |s.phys X0 - x| ≤ s.tol
    · have he : X0 = Xp := by simpa [solve_loop, hc] using h
      exact he ▸ hc
    · simp [solve_loop, hc] at h
  | succ n ih =>
    intro X0 Xp h
    by_cases hc : |s.phys X0 - x| ≤ s.tol
    · have he : X0 = Xp := by simpa [solve_loop, hc] using h
      exact he ▸ hc
    · exact ih (s.step X0 x) Xp (by simpa [solve_loop, hc] using h)

/-- Claim C1: on a valid (non-degenerate) cell, i.e. one whose forward
coordinate map admits an inverse-Lipschitz modulus C ≥ 0 — which holds for
affine and non-affine maps alike — applying `compute_physical_coordinates` to
a reference point X and then `compute_reference_coordinates` to the resulting
physical point yields, whenever the solver returns a point Xp, a point within
C times the solver tolerance of X: the round trip reproduces X within solver
tolerance. -/
theorem C1_round_trip (s : coordinate_map_solver) (C X X0 Xp : ℚ)
    (fuel : Nat) (hC : 0 ≤ C)
    (hlip : ∀ a b : ℚ, |a - b| ≤ C * |s.phys a - s.phys b|)
    (hsolve : s.compute_reference_coordinates
      (s.compute_physical_coordinates X) fuel X0 = Option.some Xp) :
    |Xp - X| ≤ C * s.tol := by
  have hres : |s.phys Xp - s.phys X| ≤ s.tol := by
    have h := solve_loop_residual s (s.compute_physical_coordinates X) fuel
      X0 Xp (by
        simpa [coordinate_map_solver.compute_reference_coordinates]
          using hsolve)
    simpa [coordinate_map_solver.compute_physical_coordinates] using h
  calc |Xp - X| ≤ C * |s.phys Xp - s.phys X| := hlip Xp X
    _ ≤ C * s.tol := mul_le_mul_of_nonneg_left hres hC

/-- One solver step when the current iterate is already within tolerance:
the loop returns it. -/
theorem solve_loop_succ_pos (s : coordinate_map_solver) (x : ℚ) (fuel : Nat)
    (X : ℚ) (h : |s.phys X - x| ≤ s.tol) :
    solve_loop s x (fuel + 1) X = Option.some X := by
  rw [solve_loop]
  exact if_pos h

/-- One solver step when the current iterate is not within tolerance: the
loop recurses on the stepped iterate. -/
theorem solve_loop_succ_neg (s : coordinate_map_solver) (x : ℚ) (fuel : Nat)
    (X : ℚ) (h : ¬ (|s.phys X - x| ≤ s.tol)) :
    solve_loop s x (fuel + 1) X = solve_loop s x fuel (s.step X x) := by
  rw [solve_loop]
  exact if_neg h

/-- The affine interval cell with forward map x = 2 X + 3, its Newton step
and solver tolerance 1/1000. -/
def exSolver : coordinate_map_solver where
  phys := fun X => 2 * X + 3
  step := fun X x => X - (2 * X + 3 - x) / 2
  tol := 1 / 1000

/-- On the concrete cell `exSolver`, the solver run from initial guess 0 with
fuel 5 recovers the reference point 1/3 of the physical point 11/3. -/
theorem exSolver_solve :
    exSolver.compute_reference_coordinates
      (exSolver.compute_physical_coordinates (1 / 3)) 5 0 =
        Option.some (1 / 3) := by
  have hx : exSolver.compute_physical_coordinates (1 / 3) = 11 / 3 := by
    show (2 : ℚ) * (1 / 3) + 3 = 11 / 3
    norm_num
  rw [coordinate_map_solver.compute_reference_coordinates, hx]
  have h1 : ¬ (|exSolver.phys 0 - 11 / 3| ≤ exSolver.tol) := by
    show ¬ (|(2 : ℚ) * 0 + 3 - 11 / 3| ≤ 1 / 1000)
    rw [not_le,
      show (2 : ℚ) * 0 + 3 - 11 / 3 = -(2 / 3) by norm_num, abs_neg,
      abs_of_nonneg (by norm_num : (0 : ℚ) ≤ 2 / 3)]
    norm_num
  have hstep : exSolver.step 0 (11 / 3) = 1 / 3 := by
    show (0 : ℚ) - (2 * 0 + 3 - 11 / 3) / 2 = 1 / 3
    norm_num
  have h2 : |exSolver.phys (1 / 3) - 11 / 3| ≤ exSolver.tol := by
    show |(2 : ℚ) * (1 / 3) + 3 - 11 / 3| ≤ 1 / 1000
    rw [show (2 : ℚ) * (1 / 3) + 3 - 11 / 3 = 0 by norm_num, abs_zero]
    norm_num
  calc solve_loop exSolver (11 / 3) 5 0
      = solve_loop exSolver (11 / 3) 4 (exSolver.step 0 (11 / 3)) :=
        solve_loop_succ_neg exSolver (11 / 3) 4 0 h1
    _ = solve_loop exSolver (11 / 3) 4 (1 / 3) := by rw [hstep]
    _ = Option.some (1 / 3) :=
        solve_loop_succ_pos exSolver (11 / 3) 3 (1 / 3) h2

/-- Witness for C1 on the concrete affine cell `exSolver` with
inverse-Lipschitz modulus 1/2, at the reference point 1/3, initial guess 0
and fuel 5: the solver returns 1/3 and the round-trip error is within
tolerance. -/
theorem C1_round_trip_witness :
    (0 : ℚ) ≤ 1 / 2 ∧
    exSolver.compute_reference_coordinates
      (exSolver.compute_physical_coordinates (1 / 3)) 5 0 =
        Option.some (1 / 3) ∧
    |(1 / 3 : ℚ) - 1 / 3| ≤ 1 / 2 * exSolver.tol :=
  ⟨by norm_num, exSolver_solve,
   C1_round_trip exSolver (1 / 2) (1 / 3) 0 (1 / 3) 5 (by norm_num)
     (by
       intro a b
       have h2 : exSolver.phys a - exSolver.phys b = 2 * (a - b) := by
         show 2 * a + 3 - (2 * b + 3) = 2 * (a - b)
         ring
       rw [h2, abs_mul, abs_two]
       linarith [abs_nonneg (a - b)])
     exSolver_solve⟩

end UFC
